import Mathlib

/-
Shallow embedding of the interactive-widget core of the `frontend-inc/nextjs-ts`
component library: the overlay positioning pass shared by `TooltipContent`,
`DropdownMenuContent` and `HoverCardContent`; the delayed open/close state
machines of `Tooltip` and `HoverCard`; the outside-click / escape dismissal
effect of `DropdownMenuContent`; the `Command` palette filtering, selection and
empty-state logic; the `ScrollBar` thumb geometry; and the dropdown item
activation handlers.  Pixel coordinates are modelled as rationals, element
handles that may be absent as `Option`, and timer-driven behaviour as explicit
state machines whose fire events are no-ops once the timer was cancelled.
-/

/-- The `side` prop of the overlay content components (`"top" | "right" |
"bottom" | "left"`). -/
inductive Side where
  | top
  | right
  | bottom
  | left
deriving DecidableEq

/-- The `align` prop (`"start" | "center" | "end"`); `end` is a Lean keyword,
hence `end'`. -/
inductive Align where
  | start
  | center
  | end'
deriving DecidableEq

/-- A DOMRect as consumed by the positioning passes: `top`, `left`, `width`,
`height` in viewport pixels; `bottom` and `right` are derived as in the DOM. -/
structure Rect where
  top : ℚ
  left : ℚ
  width : ℚ
  height : ℚ
deriving DecidableEq

/-- DOMRect `bottom = top + height`. -/
def Rect.bottom (r : Rect) : ℚ := r.top + r.height

/-- DOMRect `right = left + width`. -/
def Rect.right (r : Rect) : ℚ := r.left + r.width

/-- The `{ top, left }` position written into render state by a positioning
pass. -/
structure OverlayPosition where
  top : ℚ
  left : ℚ
deriving DecidableEq

/-- The position computation of `TooltipContent` (tooltip.tsx): the first
`switch` on `side` sets the primary-axis coordinate (and, for `left`/`right`,
a centered default `top`); the two `align` switches then overwrite the
cross-axis coordinate. -/
def tooltipResolvePosition (trigger content : Rect) (side : Side) (align : Align)
    (sideOffset : ℚ) : OverlayPosition :=
  let top : ℚ := 0
  let left : ℚ := 0
  let top := match side with
    | .top => trigger.top - content.height - sideOffset
    | .bottom => trigger.bottom + sideOffset
    | .left => trigger.top + (trigger.height - content.height) / 2
    | .right => trigger.top + (trigger.height - content.height) / 2
  let left := match side with
    | .left => trigger.left - content.width - sideOffset
    | .right => trigger.right + sideOffset
    | _ => left
  let left := if side = .top ∨ side = .bottom then
      match align with
      | .start => trigger.left
      | .center => trigger.left + (trigger.width - content.width) / 2
      | .end' => trigger.right - content.width
    else left
  let top := if side = .left ∨ side = .right then
      match align with
      | .start => trigger.top
      | .center => trigger.top + (trigger.height - content.height) / 2
      | .end' => trigger.bottom - content.height
    else top
  { top := top, left := left }

/-- The position computation of `DropdownMenuContent` (dropdown-menu.tsx).
It differs from the tooltip's only in the (dead) pre-alignment `top` default
for the `left`/`right` sides, which is `trigger.top` instead of centered. -/
def dropdownResolvePosition (trigger content : Rect) (side : Side) (align : Align)
    (sideOffset : ℚ) : OverlayPosition :=
  let top : ℚ := 0
  let left : ℚ := 0
  let top := match side with
    | .top => trigger.top - content.height - sideOffset
    | .bottom => trigger.bottom + sideOffset
    | .left => trigger.top
    | .right => trigger.top
  let left := match side with
    | .left => trigger.left - content.width - sideOffset
    | .right => trigger.right + sideOffset
    | _ => left
  let left := if side = .top ∨ side = .bottom then
      match align with
      | .start => trigger.left
      | .center => trigger.left + (trigger.width - content.width) / 2
      | .end' => trigger.right - content.width
    else left
  let top := if side = .left ∨ side = .right then
      match align with
      | .start => trigger.top
      | .center => trigger.top + (trigger.height - content.height) / 2
      | .end' => trigger.bottom - content.height
    else top
  { top := top, left := left }

/-- The position computation of `HoverCardContent` (hover-card.tsx); textually
identical to the tooltip's. -/
def hoverCardResolvePosition (trigger content : Rect) (side : Side) (align : Align)
    (sideOffset : ℚ) : OverlayPosition :=
  let top : ℚ := 0
  let left : ℚ := 0
  let top := match side with
    | .top => trigger.top - content.height - sideOffset
    | .bottom => trigger.bottom + sideOffset
    | .left => trigger.top + (trigger.height - content.height) / 2
    | .right => trigger.top + (trigger.height - content.height) / 2
  let left := match side with
    | .left => trigger.left - content.width - sideOffset
    | .right => trigger.right + sideOffset
    | _ => left
  let left := if side = .top ∨ side = .bottom then
      match align with
      | .start => trigger.left
      | .center => trigger.left + (trigger.width - content.width) / 2
      | .end' => trigger.right - content.width
    else left
  let top := if side = .left ∨ side = .right then
      match align with
      | .start => trigger.top
      | .center => trigger.top + (trigger.height - content.height) / 2
      | .end' => trigger.bottom - content.height
    else top
  { top := top, left := left }

/-- The position demanded by the specification of the geometry resolver
(stated from the spec's words, to compare with the code's functions): the
primary-axis equation for each `side`, and the cross-axis equation for each
`align` (`start` flush with the trigger's near edge, `center` centered on the
trigger's span, `end` flush with the far edge). -/
def anchoredAsSpecified (trigger content : Rect) (side : Side) (align : Align)
    (off : ℚ) (p : OverlayPosition) : Prop :=
  match side, align with
  | .top, .start =>
      p.top = trigger.top - content.height - off ∧ p.left = trigger.left
  | .top, .center =>
      p.top = trigger.top - content.height - off ∧
        p.left + content.width / 2 = trigger.left + trigger.width / 2
  | .top, .end' =>
      p.top = trigger.top - content.height - off ∧ p.left + content.width = trigger.right
  | .bottom, .start =>
      p.top = trigger.bottom + off ∧ p.left = trigger.left
  | .bottom, .center =>
      p.top = trigger.bottom + off ∧
        p.left + content.width / 2 = trigger.left + trigger.width / 2
  | .bottom, .end' =>
      p.top = trigger.bottom + off ∧ p.left + content.width = trigger.right
  | .left, .start =>
      p.left = trigger.left - content.width - off ∧ p.top = trigger.top
  | .left, .center =>
      p.left = trigger.left - content.width - off ∧
        p.top + content.height / 2 = trigger.top + trigger.height / 2
  | .left, .end' =>
      p.left = trigger.left - content.width - off ∧ p.top + content.height = trigger.bottom
  | .right, .start =>
      p.left = trigger.right + off ∧ p.top = trigger.top
  | .right, .center =>
      p.left = trigger.right + off ∧
        p.top + content.height / 2 = trigger.top + trigger.height / 2
  | .right, .end' =>
      p.left = trigger.right + off ∧ p.top + content.height = trigger.bottom

/-- Claim C2: for every trigger rectangle, content rectangle, side, align and
offset, all three content components resolve the overlay position exactly as
the spec's anchor algorithm demands (primary axis at distance `offset` fully
before/after the trigger, cross axis flush-start / centered / flush-end). -/
theorem c2_resolvePosition_matches_anchor (t c : Rect) (side : Side) (align : Align) (o : ℚ) :
    anchoredAsSpecified t c side align o (tooltipResolvePosition t c side align o) ∧
    anchoredAsSpecified t c side align o (dropdownResolvePosition t c side align o) ∧
    anchoredAsSpecified t c side align o (hoverCardResolvePosition t c side align o) := by
  cases side <;> cases align <;>
    refine ⟨⟨?_, ?_⟩, ⟨?_, ?_⟩, ⟨?_, ?_⟩⟩ <;>
    simp [anchoredAsSpecified, tooltipResolvePosition, dropdownResolvePosition,
      hoverCardResolvePosition, Rect.bottom, Rect.right] <;>
    ring

/-- `ScrollBar` thumb size (progress.tsx, scroll-area section):
`contentSize > 0 ? Math.max((viewportSize / contentSize) * 100, 10) : 0`,
a percentage of the track. -/
def thumbSize (viewportSize contentSize : ℚ) : ℚ :=
  if 0 < contentSize then max (viewportSize / contentSize * 100) 10 else 0

/-- `ScrollBar` thumb position (progress.tsx, scroll-area section):
`contentSize > viewportSize ? (scrollPosition / (contentSize - viewportSize)) *
(100 - thumbSize) : 0`, a percentage of the track. -/
def thumbPosition (scrollPosition viewportSize contentSize : ℚ) : ℚ :=
  if viewportSize < contentSize then
    scrollPosition / (contentSize - viewportSize) * (100 - thumbSize viewportSize contentSize)
  else 0

/-- Claim C6: for positive content size the thumb occupies
`max(viewportSize / contentSize, 1/10)` of the (100-unit) track; the thumb
position is `(scrollOffset / (contentSize - viewportSize)) * (track -
thumbSize)` when the content overflows and `0` otherwise; and at
`viewportSize = 100, contentSize = 400, scrollOffset = 150` the thumb sits at
`150 / (400 - 100) = 1/2` of the available track. -/
theorem c6_thumb_geometry (v c o : ℚ) :
    (0 < c → thumbSize v c = 100 * max (v / c) (1 / 10)) ∧
    (c ≤ v → thumbPosition o v c = 0) ∧
    (v < c → thumbPosition o v c = o / (c - v) * (100 - thumbSize v c)) ∧
    thumbPosition 150 100 400 = 150 / (400 - 100) * (100 - thumbSize 100 400) ∧
    thumbPosition 150 100 400 = 1 / 2 * (100 - thumbSize 100 400) := by
  refine ⟨fun hc => ?_, fun hcv => ?_, fun hvc => ?_, ?_, ?_⟩
  · rw [thumbSize, if_pos hc, mul_max_of_nonneg _ _ (by norm_num : (0 : ℚ) ≤ 100)]
    norm_num [mul_comm]
  · rw [thumbPosition, if_neg (not_lt.mpr hcv)]
  · rw [thumbPosition, if_pos hvc]
  · norm_num [thumbPosition, thumbSize]
  · norm_num [thumbPosition, thumbSize]

/-- Claim C6 witness: the theorem instantiated at the spec's own example
geometry. -/
theorem c6_thumb_geometry_witness :
    thumbSize 100 400 = 100 * max ((100 : ℚ) / 400) (1 / 10) ∧
    thumbPosition 150 100 400 = 150 / (400 - 100) * (100 - thumbSize 100 400) :=
  ⟨(c6_thumb_geometry 100 400 150).1 (by norm_num),
   (c6_thumb_geometry 100 400 150).2.2.2.1⟩

/-- The `useLayoutEffect` positioning pass of `TooltipContent` (the guard in
`DropdownMenuContent` and `HoverCardContent` is textually identical):
`if (!open || !triggerRef.current || !contentRef.current) return` keeps the
previous `position` state; otherwise the position is recomputed from the two
measured rectangles. -/
def layoutPass (isOpen : Bool) (triggerEl contentEl : Option Rect) (side : Side)
    (align : Align) (sideOffset : ℚ) (position : OverlayPosition) : OverlayPosition :=
  match isOpen, triggerEl, contentEl with
  | true, some t, some c => tooltipResolvePosition t c side align sideOffset
  | _, _, _ => position

/-- The all-zero rectangle produced by measuring an element that has not been
laid out. -/
def zeroRect : Rect := { top := 0, left := 0, width := 0, height := 0 }

/-- Claim C9 counterexample: with both elements measuring as all-zero
rectangles the positioning pass is NOT skipped — it overwrites the stored
position (here with `top = 0 + 4`, `left = 0`) instead of deferring. -/
theorem c9_counterexample :
    layoutPass true (some zeroRect) (some zeroRect) Side.bottom Align.center 4
        { top := 0, left := 0 } ≠ { top := 0, left := 0 } := by
  have h : (layoutPass true (some zeroRect) (some zeroRect) Side.bottom Align.center 4
      { top := 0, left := 0 }).top = 4 := by
    norm_num [layoutPass, tooltipResolvePosition, zeroRect, Rect.bottom]
    decide
  intro hEq
  rw [hEq] at h
  norm_num at h

/-- Claim C9 amended: the positioning pass is skipped (the stored position is
kept) exactly when the overlay is closed or the trigger or content element is
absent; an all-zero measured rectangle is not detected — whenever both
elements are present and the overlay is open, the pass always computes the
resolved position, which is total (no crash) even on degenerate rectangles. -/
theorem c9_guard_amended (t c : Rect) (side : Side) (align : Align) (o : ℚ)
    (p : OverlayPosition) :
    layoutPass false (some t) (some c) side align o p = p ∧
    (∀ oc : Option Rect, layoutPass true none oc side align o p = p) ∧
    layoutPass true (some t) none side align o p = p ∧
    layoutPass true (some t) (some c) side align o p =
      tooltipResolvePosition t c side align o :=
  ⟨rfl, fun _ => rfl, rfl, rfl⟩

/-- A registered `CommandItem`: its searchable text (the `value` prop or the
text derived from its children), its `keywords` prop, and its `disabled`
prop. -/
structure CommandItemData where
  text : String
  keywords : List String
  disabled : Bool
deriving DecidableEq

/-- JavaScript `value.includes(search)`: `search` occurs as a contiguous
substring of `value`. -/
def jsIncludes (value search : String) : Bool :=
  decide (search.toList <:+: value.toList)

/-- JavaScript `value.toLowerCase()`, modelled character-wise. -/
def jsToLower (value : String) : String :=
  ⟨value.toList.map Char.toLower⟩

/-- `Command`'s `defaultFilter` (progress.tsx): `if (!shouldFilter) return
true; if (search.length === 0) return true; return
value.toLowerCase().includes(search.toLowerCase())`. -/
def defaultFilter (shouldFilter : Bool) (value search : String) : Bool :=
  if !shouldFilter then true
  else if search.length = 0 then true
  else jsIncludes (jsToLower value) (jsToLower search)

/-- `CommandItem`'s `allSearchableText = [searchableText, ...keywords].join(" ")`. -/
def allSearchableText (it : CommandItemData) : String :=
  String.intercalate " " (it.text :: it.keywords)

/-- `CommandItem`'s `isVisible = search.length === 0 ? true :
filter(allSearchableText, search)`. -/
def itemIsVisible (filter : String → String → Bool) (search : String)
    (it : CommandItemData) : Bool :=
  if search.length = 0 then true else filter (allSearchableText it) search

/-- Claim C1 counterexample: a custom predicate that rejects everything does
NOT replace the empty-query shortcut — with query `""` the item is still
visible although the predicate rejects it, so "visible iff the active
predicate accepts" fails for a custom predicate on the empty query. -/
theorem c1_counterexample :
    itemIsVisible (fun _ _ => false) ""
        { text := "Calendar", keywords := [], disabled := false } = true ∧
    (fun _ _ => false) (allSearchableText
        { text := "Calendar", keywords := [], disabled := false }) "" = false :=
  ⟨rfl, rfl⟩

/-- Claim C1 amended: for a non-empty query an item is visible iff the active
predicate accepts its searchable text joined with its keywords against the
query, and the default predicate is case-insensitive substring match; an
empty query makes every item visible regardless of the active predicate — the
empty-query shortcut is applied before the predicate runs and is not replaced
by a custom predicate. -/
theorem c1_visibility_amended (f : String → String → Bool) (s : String)
    (it : CommandItemData) :
    (s.length ≠ 0 → itemIsVisible f s it = f (allSearchableText it) s) ∧
    itemIsVisible f "" it = true ∧
    (s.length ≠ 0 → itemIsVisible (defaultFilter true) s it
        = jsIncludes (jsToLower (allSearchableText it)) (jsToLower s)) := by
  refine ⟨fun hs => ?_, rfl, fun hs => ?_⟩
  · rw [itemIsVisible, if_neg hs]
  · rw [itemIsVisible, if_neg hs, defaultFilter]
    simp [hs]

/-- Claim C1 witness: the amended theorem applied at the query `"cal"` and the
item `"Calendar"`. -/
theorem c1_visibility_amended_witness :
    itemIsVisible (defaultFilter true) "cal"
        { text := "Calendar", keywords := [], disabled := false }
      = jsIncludes (jsToLower (allSearchableText
          { text := "Calendar", keywords := [], disabled := false })) (jsToLower "cal") :=
  (c1_visibility_amended (defaultFilter true) "cal"
      { text := "Calendar", keywords := [], disabled := false }).2.2 (by decide)

/-- `Command`'s interaction state: the `search` string and the numeric
`selectedIndex` (a JS number the handlers may drive below zero, hence `ℤ`). -/
structure CommandState where
  search : String
  selectedIndex : ℤ
deriving DecidableEq

/-- `setSearch` together with the reset effect
`React.useEffect(() => setSelectedIndex(0), [search])`. -/
def cmdSetSearch (q : String) (_s : CommandState) : CommandState :=
  { search := q, selectedIndex := 0 }

/-- `items.current.filter((item) => item && !item.hidden)`: the registered
items the active filter leaves visible, in registration order. -/
def cmdVisibleItems (f : String → String → Bool) (search : String)
    (items : List CommandItemData) : List CommandItemData :=
  items.filter (fun it => itemIsVisible f search it)

/-- `CommandItem`'s `isSelected = selectedIndex === indexRef.current &&
isVisible`: the stored index is compared against the item's absolute
registration index (not its position among the visible items), and the
`disabled` prop is not consulted. -/
def itemIsSelected (selectedIndex : ℤ) (f : String → String → Bool)
    (search : String) (index : ℕ) (it : CommandItemData) : Bool :=
  decide (selectedIndex = (index : ℤ)) && itemIsVisible f search it

/-- The item the `Enter` branch of `Command.handleKeyDown` clicks:
`visibleItems[selectedIndex]` (undefined for an out-of-range index). -/
def cmdEnterTarget (f : String → String → Bool) (st : CommandState)
    (items : List CommandItemData) : Option CommandItemData :=
  if st.selectedIndex < 0 then none
  else (cmdVisibleItems f st.search items)[st.selectedIndex.toNat]?

/-- The two-item registry of the C3 scenario, in registration order. -/
def c3Items : List CommandItemData :=
  [{ text := "Calendar", keywords := [], disabled := false },
   { text := "Mail", keywords := [], disabled := false }]

/-- Claim C3 (violated by the code): after filtering `["Calendar", "Mail"]`
with query `"mail"`, the reset selection index `0` refers to no visible item —
a visible, non-disabled item exists (`"Mail"`) yet `isSelected` is false for
every item, while the `Enter` handler would activate `"Mail"`; the
highlighted item and the activated item disagree because `selectedIndex`
indexes the visible list in the key handler but the absolute registry in
`isSelected`. -/
theorem c3_selection_invariant_fails :
    (∃ it ∈ c3Items,
      itemIsVisible (defaultFilter true) "mail" it = true ∧ it.disabled = false) ∧
    (cmdSetSearch "mail" { search := "", selectedIndex := 0 }).selectedIndex = 0 ∧
    (∀ i : Fin c3Items.length,
      itemIsSelected 0 (defaultFilter true) "mail" i (c3Items.get i) = false) ∧
    cmdEnterTarget (defaultFilter true)
        (cmdSetSearch "mail" { search := "", selectedIndex := 0 }) c3Items
      = some { text := "Mail", keywords := [], disabled := false } := by
  decide

/-- The `ArrowDown` branch of `Command.handleKeyDown`:
`const next = prev + 1; return next >= visibleItems.length ? 0 : next`. -/
def cmdArrowDown (visibleCount : ℕ) (sel : ℤ) : ℤ :=
  if (visibleCount : ℤ) ≤ sel + 1 then 0 else sel + 1

/-- The `ArrowUp` branch of `Command.handleKeyDown`:
`const next = prev - 1; return next < 0 ? visibleItems.length - 1 : next`. -/
def cmdArrowUp (visibleCount : ℕ) (sel : ℤ) : ℤ :=
  if sel - 1 < 0 then (visibleCount : ℤ) - 1 else sel - 1

/-- On an in-range index, `ArrowDown` is the successor modulo the visible
count. -/
theorem cmdArrowDown_eq_emod (N : ℕ) (sel : ℤ) (h0 : 0 ≤ sel) (h1 : sel < (N : ℤ)) :
    cmdArrowDown N sel = (sel + 1) % (N : ℤ) := by
  rw [cmdArrowDown]
  by_cases h : (N : ℤ) ≤ sel + 1
  · rw [if_pos h]
    have hEq : sel + 1 = (N : ℤ) := le_antisymm (by omega) h
    rw [hEq, Int.emod_self]
  · rw [if_neg h]
    exact (Int.emod_eq_of_lt (by omega) (by omega)).symm

/-- Iterating `ArrowDown` from an in-range index adds modulo the visible
count. -/
theorem cmdArrowDown_iterate (N : ℕ) (sel : ℤ) (h0 : 0 ≤ sel) (h1 : sel < (N : ℤ)) :
    ∀ k : ℕ, (cmdArrowDown N)^[k] sel = (sel + k) % (N : ℤ) := by
  have hN : 0 < (N : ℤ) := lt_of_le_of_lt h0 h1
  intro k
  induction k with
  | zero => simpa using (Int.emod_eq_of_lt h0 h1).symm
  | succ k ih =>
      rw [Function.iterate_succ_apply', ih]
      have hm0 : 0 ≤ (sel + (k : ℤ)) % (N : ℤ) := Int.emod_nonneg _ (by omega)
      have hm1 : (sel + (k : ℤ)) % (N : ℤ) < (N : ℤ) := Int.emod_lt_of_pos _ hN
      rw [cmdArrowDown_eq_emod N _ hm0 hm1]
      push_cast
      rw [← add_assoc, Int.add_emod ((sel + (k : ℤ)) % (N : ℤ)) 1,
        Int.emod_emod_of_dvd _ dvd_rfl, ← Int.add_emod]

/-- Claim C7: when the selection lies among the `N` visible items, `ArrowDown`
wraps from the last visible index to the first, `ArrowUp` wraps from the
first to the last, and `N` applications of `ArrowDown` return the selection
to the original item. -/
theorem c7_moveSelection_cyclic (N : ℕ) (sel : ℤ) (h0 : 0 ≤ sel) (h1 : sel < (N : ℤ)) :
    (cmdArrowDown N)^[N] sel = sel ∧
    cmdArrowDown N ((N : ℤ) - 1) = 0 ∧
    cmdArrowUp N 0 = (N : ℤ) - 1 := by
  refine ⟨?_, ?_, ?_⟩
  · rw [cmdArrowDown_iterate N sel h0 h1 N]
    have hself : (sel + (N : ℤ)) % (N : ℤ) = sel % (N : ℤ) := by
      simpa using Int.add_mul_emod_self_left (a := sel) (b := (N : ℤ)) (c := 1)
    rw [hself, Int.emod_eq_of_lt h0 h1]
  · rw [cmdArrowDown, if_pos (by omega : (N : ℤ) ≤ (N : ℤ) - 1 + 1)]
  · rw [cmdArrowUp, if_pos (by omega : (0 : ℤ) - 1 < 0)]

/-- Claim C7 witness: with three visible items, three `ArrowDown` steps from
index 1 return to index 1, `ArrowDown` wraps 2 to 0 and `ArrowUp` wraps 0
to 2. -/
theorem c7_moveSelection_cyclic_witness :
    (cmdArrowDown 3)^[3] 1 = 1 ∧
    cmdArrowDown 3 ((3 : ℤ) - 1) = 0 ∧
    cmdArrowUp 3 0 = (3 : ℤ) - 1 :=
  c7_moveSelection_cyclic 3 1 (by norm_num) (by norm_num)

/-- The registry `items.current` of `Command`: a sparse array of registered
item elements (`none` for a slot with no registered element). -/
def registeredItems (registry : List (Option CommandItemData)) : List CommandItemData :=
  registry.filterMap id

/-- `CommandEmpty`'s `visibleItems`: `search.length === 0 ?
items.current.filter((item) => item) : items.current.filter((item) => item &&
!item.hidden)`; an item is hidden exactly when its `isVisible` is false. -/
def commandEmptyVisibleItems (f : String → String → Bool) (search : String)
    (registry : List (Option CommandItemData)) : List CommandItemData :=
  if search.length = 0 then registeredItems registry
  else (registeredItems registry).filter (fun it => itemIsVisible f search it)

/-- `CommandEmpty`'s flag: `search.length > 0 && visibleItems.length === 0`. -/
def commandIsEmpty (f : String → String → Bool) (search : String)
    (registry : List (Option CommandItemData)) : Bool :=
  decide (0 < search.length) &&
    decide ((commandEmptyVisibleItems f search registry).length = 0)

/-- Claim C8: the empty-state flag is true iff the query is non-empty and the
number of registered items the active filter leaves visible is zero; with an
empty query it is false regardless of the registry (including the empty one);
and on the spec's examples: query `"zz"` over `["Calendar", "Mail"]` gives
true, query `""` over no items gives false. -/
theorem c8_emptyState (f : String → String → Bool) (s : String)
    (registry : List (Option CommandItemData)) :
    (commandIsEmpty f s registry = true ↔
      0 < s.length ∧
        ((registeredItems registry).filter (fun it => itemIsVisible f s it)).length = 0) ∧
    (s = "" → commandIsEmpty f s registry = false) ∧
    commandIsEmpty (defaultFilter true) "zz"
      [some { text := "Calendar", keywords := [], disabled := false },
       some { text := "Mail", keywords := [], disabled := false }] = true ∧
    commandIsEmpty (defaultFilter true) "" [] = false := by
  refine ⟨?_, fun hs => ?_, by decide, by decide⟩
  · by_cases h : s.length = 0
    · simp [commandIsEmpty, commandEmptyVisibleItems, h]
    · simp [commandIsEmpty, commandEmptyVisibleItems, h]
  · subst hs
    rfl

/-- Claim C8 witness: the theorem applied at the empty query and the empty
registry. -/
theorem c8_emptyState_witness :
    commandIsEmpty (defaultFilter true) "" [] = false :=
  (c8_emptyState (defaultFilter true) "" []).2.1 rfl

/-- `TooltipTrigger`'s state: the surface's `open` flag and whether the
`setTimeout(() => setOpen(true), delayDuration)` scheduled by a mouse-enter
is still pending. -/
structure TooltipTriggerState where
  isOpen : Bool
  pendingOpen : Bool
deriving DecidableEq

/-- `TooltipTrigger.handleMouseEnter`: with `delayDuration > 0` it only
schedules the open timer; otherwise it opens immediately. -/
def ttMouseEnter (delayDuration : ℕ) (s : TooltipTriggerState) : TooltipTriggerState :=
  if 0 < delayDuration then { s with pendingOpen := true } else { s with isOpen := true }

/-- `TooltipTrigger.handleMouseLeave`: `clearTimeout` on the pending open
timer, then `setOpen(false)`. -/
def ttMouseLeave (s : TooltipTriggerState) : TooltipTriggerState :=
  { s with isOpen := false, pendingOpen := false }

/-- The scheduled open timer firing; a no-op once the timer was cancelled. -/
def ttTimerFires (s : TooltipTriggerState) : TooltipTriggerState :=
  if s.pendingOpen then { isOpen := true, pendingOpen := false } else s

/-- `HoverCard`'s state: the `open` flag and the two pending timers
(`openTimeoutRef`, `closeTimeoutRef`). -/
structure HoverCardState where
  isOpen : Bool
  openTimer : Bool
  closeTimer : Bool
deriving DecidableEq

/-- `HoverCard.setOpen(value)`: clears both pending timers, then schedules
the open timer (for `value = true`) or the close timer (for `value = false`);
the `open` flag itself only changes when a timer later fires. -/
def hcSetOpen (value : Bool) (s : HoverCardState) : HoverCardState :=
  if value then { s with openTimer := true, closeTimer := false }
  else { s with openTimer := false, closeTimer := true }

/-- The scheduled open timer firing (`setUncontrolledOpen(true)`); a no-op
once the timer was cancelled. -/
def hcOpenTimerFires (s : HoverCardState) : HoverCardState :=
  if s.openTimer then { s with isOpen := true, openTimer := false } else s

/-- The scheduled close timer firing (`setUncontrolledOpen(false)`); a no-op
once the timer was cancelled. -/
def hcCloseTimerFires (s : HoverCardState) : HoverCardState :=
  if s.closeTimer then { s with isOpen := false, closeTimer := false } else s

/-- A timer-firing event of the hover card. -/
inductive HoverCardTimerEvent where
  | openFires
  | closeFires

/-- Dispatch one timer-firing event on a `HoverCardState`. -/
def hcTimerStep (s : HoverCardState) (e : HoverCardTimerEvent) : HoverCardState :=
  match e with
  | .openFires => hcOpenTimerFires s
  | .closeFires => hcCloseTimerFires s

/-- A closed hover-card state with no live open timer stays closed under any
sequence of timer firings. -/
theorem hcTimerSteps_stay_closed (l : List HoverCardTimerEvent) :
    ∀ s : HoverCardState, s.isOpen = false → s.openTimer = false →
      (l.foldl hcTimerStep s).isOpen = false ∧ (l.foldl hcTimerStep s).openTimer = false := by
  induction l with
  | nil => exact fun s h1 h2 => ⟨h1, h2⟩
  | cons e rest ih =>
      intro s h1 h2
      cases e
      · have hstep : hcTimerStep s .openFires = s := by
          rw [hcTimerStep, hcOpenTimerFires, h2]
          simp
        rw [List.foldl_cons, hstep]
        exact ih s h1 h2
      · rw [List.foldl_cons]
        rw [hcTimerStep, hcCloseTimerFires]
        by_cases hc : s.closeTimer
        · rw [if_pos hc]
          exact ih _ rfl h2
        · rw [if_neg hc]
          exact ih s h1 h2

/-- Claim C4: for any open delay `d > 0`, a pointer-enter followed by a
pointer-leave before the delay elapses never opens the surface: the tooltip's
pending open timeout is cleared (so any later firing is a no-op and the
tooltip stays closed forever), and the hover card's `setOpen(false)` clears
the pending open timer (so the card stays closed under every subsequent
sequence of timer firings); in both components the surface is also never open
between the two events. -/
theorem c4_pendingOpen_cancelled (d : ℕ) (hd : 0 < d)
    (ts : TooltipTriggerState) (hts : ts.isOpen = false)
    (hs : HoverCardState) (hhs : hs.isOpen = false)
    (n : ℕ) (l : List HoverCardTimerEvent) :
    (ttMouseEnter d ts).isOpen = false ∧
    (ttMouseLeave (ttMouseEnter d ts)).pendingOpen = false ∧
    (ttTimerFires^[n] (ttMouseLeave (ttMouseEnter d ts))).isOpen = false ∧
    (hcSetOpen true hs).isOpen = false ∧
    (hcSetOpen false (hcSetOpen true hs)).openTimer = false ∧
    (l.foldl hcTimerStep (hcSetOpen false (hcSetOpen true hs))).isOpen = false := by
  have henter : ttMouseEnter d ts = { ts with pendingOpen := true } := by
    rw [ttMouseEnter, if_pos hd]
  have hleave : ttMouseLeave (ttMouseEnter d ts) =
      { isOpen := false, pendingOpen := false } := by
    rw [henter, ttMouseLeave]
  have hfix : ttTimerFires { isOpen := false, pendingOpen := false } =
      { isOpen := false, pendingOpen := false } := by
    rw [ttTimerFires]
    simp
  have hiter : ttTimerFires^[n] (ttMouseLeave (ttMouseEnter d ts)) =
      { isOpen := false, pendingOpen := false } := by
    rw [hleave, Function.iterate_fixed hfix]
  have hset : hcSetOpen false (hcSetOpen true hs) =
      { hs with openTimer := false, closeTimer := true } := by
    simp [hcSetOpen]
  refine ⟨?_, ?_, ?_, ?_, ?_, ?_⟩
  · rw [henter]
    exact hts
  · rw [hleave]
  · rw [hiter]
  · rw [hcSetOpen, if_pos rfl]
    exact hhs
  · rw [hset]
  · rw [hset]
    exact (hcTimerSteps_stay_closed l
      { hs with openTimer := false, closeTimer := true } hhs rfl).1

/-- Claim C4 witness: the theorem applied at delay 700 ms, the closed tooltip
and hover-card states, two tooltip timer firings and a close-then-open firing
sequence for the hover card. -/
theorem c4_pendingOpen_cancelled_witness :
    (ttMouseEnter 700 { isOpen := false, pendingOpen := false }).isOpen = false ∧
    (ttMouseLeave (ttMouseEnter 700 { isOpen := false, pendingOpen := false })).pendingOpen
      = false ∧
    (ttTimerFires^[2]
      (ttMouseLeave (ttMouseEnter 700 { isOpen := false, pendingOpen := false }))).isOpen
      = false ∧
    (hcSetOpen true { isOpen := false, openTimer := false, closeTimer := false }).isOpen
      = false ∧
    (hcSetOpen false (hcSetOpen true
      { isOpen := false, openTimer := false, closeTimer := false })).openTimer = false ∧
    ([HoverCardTimerEvent.closeFires, HoverCardTimerEvent.openFires].foldl hcTimerStep
      (hcSetOpen false (hcSetOpen true
        { isOpen := false, openTimer := false, closeTimer := false }))).isOpen = false :=
  c4_pendingOpen_cancelled 700 (by decide) _ rfl _ rfl 2
    [HoverCardTimerEvent.closeFires, HoverCardTimerEvent.openFires]

/-- The dismissal-relevant state of `DropdownMenuContent`: the `open` flag,
whether the document-level `mousedown`/`keydown` listeners are currently
attached, and whether keyboard focus was returned to the trigger. -/
structure DismissState where
  isOpen : Bool
  listenersAttached : Bool
  triggerFocused : Bool
deriving DecidableEq

/-- The `React.useEffect` on `[open, ...]`: after every state change the
listeners are re-synchronized — attached exactly while `open` is true
(`if (!open) return` plus the cleanup removing them). -/
def dismissSyncEffect (s : DismissState) : DismissState :=
  { s with listenersAttached := s.isOpen }

/-- A document `mousedown` whose target is inside the content and/or the
trigger as indicated: `handleClickOutside` runs only while the listeners are
attached and calls `setOpen(false)` when the target is outside both; the
effect then re-synchronizes the listeners. -/
def dismissPointerDown (insideContent insideTrigger : Bool) (s : DismissState) :
    DismissState :=
  dismissSyncEffect
    (if s.listenersAttached && !insideContent && !insideTrigger then
      { s with isOpen := false }
    else s)

/-- A document `keydown` with key `Escape`: while the listeners are attached,
`setOpen(false)` and `triggerRef.current?.focus()`; the effect then
re-synchronizes the listeners. -/
def dismissEscape (s : DismissState) : DismissState :=
  dismissSyncEffect
    (if s.listenersAttached then { s with isOpen := false, triggerFocused := true } else s)

/-- Unmounting the content: the effect cleanup removes the document-level
listeners. -/
def dismissUnmount (s : DismissState) : DismissState :=
  { s with listenersAttached := false }

/-- Claim C5: from a synchronized state (listeners attached iff open), an
outside pointer-down closes an open overlay, a second outside pointer-down is
a no-op (the transition happens exactly once), any pointer-down on a closed
overlay is a no-op, an escape key-press closes the overlay and returns focus
to the trigger, and the listeners are attached only while open — every event
leaves them synchronized and unmounting detaches them. -/
theorem c5_outside_dismissal (s : DismissState)
    (hsync : s.listenersAttached = s.isOpen) :
    (s.isOpen = true →
      (dismissPointerDown false false s).isOpen = false ∧
      dismissPointerDown false false (dismissPointerDown false false s) =
        dismissPointerDown false false s ∧
      (dismissEscape s).isOpen = false ∧
      (dismissEscape s).triggerFocused = true) ∧
    (s.isOpen = false → ∀ a b : Bool, dismissPointerDown a b s = s) ∧
    (∀ a b : Bool,
      (dismissPointerDown a b s).listenersAttached = (dismissPointerDown a b s).isOpen) ∧
    (dismissEscape s).listenersAttached = (dismissEscape s).isOpen ∧
    (dismissUnmount s).listenersAttached = false := by
  rcases s with ⟨o, la, tf⟩
  have h : la = o := hsync
  subst h
  cases la <;> cases tf <;> decide

/-- Claim C5 witness: the theorem applied at the open, synchronized,
not-yet-focused state. -/
theorem c5_outside_dismissal_witness :
    ((dismissPointerDown false false
        { isOpen := true, listenersAttached := true, triggerFocused := false }).isOpen
      = false) ∧
    ((dismissEscape
        { isOpen := true, listenersAttached := true, triggerFocused := false }).triggerFocused
      = true) ∧
    ((dismissUnmount
        { isOpen := true, listenersAttached := true, triggerFocused := false }).listenersAttached
      = false) :=
  ⟨((c5_outside_dismissal
      { isOpen := true, listenersAttached := true, triggerFocused := false } rfl).1 rfl).1,
   ((c5_outside_dismissal
      { isOpen := true, listenersAttached := true, triggerFocused := false } rfl).1 rfl).2.2.2,
   (c5_outside_dismissal
      { isOpen := true, listenersAttached := true, triggerFocused := false } rfl).2.2.2.2⟩

/-- The observable outcome of activating a dropdown item: whether the
caller-supplied `onClick` handler ran, and the menu's `open` flag
afterwards. -/
structure ActivationResult where
  handlerInvoked : Bool
  menuOpen : Bool
deriving DecidableEq

/-- `DropdownMenuItem.handleClick`: `props.onClick?.(e)` runs first; then
`if (!e.defaultPrevented) setOpen(false)`.  `handlerPrevents` records whether
the caller's handler calls `preventDefault`, `eventPrevented` whether
`preventDefault` was already called on the event before the handler ran. -/
def dropdownMenuItemClick (handlerPrevents eventPrevented menuOpen : Bool) :
    ActivationResult :=
  let prevented := eventPrevented || handlerPrevents
  { handlerInvoked := true, menuOpen := if prevented then menuOpen else false }

/-- `DropdownMenuItem.handleKeyDown`: for `Enter` or `" "` it calls
`e.preventDefault()` on the event and then `handleClick` with that same,
now-prevented event; other keys do not activate. -/
def dropdownMenuItemKeyDown (key : String) (handlerPrevents menuOpen : Bool) :
    ActivationResult :=
  if key = "Enter" ∨ key = " " then dropdownMenuItemClick handlerPrevents true menuOpen
  else { handlerInvoked := false, menuOpen := menuOpen }

/-- `DropdownMenuCheckboxItem.handleClick`: `e.preventDefault()`, then
`onCheckedChange?.(!checked)`, then `props.onClick?.(e)`; `setOpen` is never
called, so the menu's flag is untouched; the new checked value is returned
alongside. -/
def dropdownMenuCheckboxItemClick (handlerPrevents checked menuOpen : Bool) :
    ActivationResult × Bool :=
  ({ handlerInvoked := true, menuOpen := menuOpen }, !checked)

/-- `DropdownMenuRadioItem.handleClick`: `e.preventDefault()`, then
`context?.onValueChange?.(value)`, then `props.onClick?.(e)`; `setOpen` is
never called; the value passed to the group is returned alongside. -/
def dropdownMenuRadioItemClick (handlerPrevents : Bool) (value : String)
    (menuOpen : Bool) : ActivationResult × String :=
  ({ handlerInvoked := true, menuOpen := menuOpen }, value)

/-- Claim C10 counterexample: a keyboard activation (`Enter`) of a plain item
whose handler does NOT call `preventDefault` leaves the menu open — the
component's own `e.preventDefault()` in `handleKeyDown` is what the
subsequent `e.defaultPrevented` check observes, so the claimed close never
happens for keyboard activation. -/
theorem c10_counterexample :
    (dropdownMenuItemKeyDown "Enter" false true).handlerInvoked = true ∧
    (dropdownMenuItemKeyDown "Enter" false true).menuOpen = true := by
  decide

/-- Claim C10 amended: a mouse click on a plain item invokes the handler and
then closes the menu iff the handler did not call `preventDefault`; an
`Enter` or Space activation invokes the handler but never closes the menu
(the component itself prevents the event's default before the close check);
activating a checkbox item or a radio item never closes the menu. -/
theorem c10_activation_amended (hp chk isOpen : Bool) (v : String) :
    (dropdownMenuItemClick hp false isOpen).handlerInvoked = true ∧
    (dropdownMenuItemClick hp false isOpen).menuOpen = (if hp then isOpen else false) ∧
    (dropdownMenuItemKeyDown "Enter" hp isOpen).handlerInvoked = true ∧
    (dropdownMenuItemKeyDown "Enter" hp isOpen).menuOpen = isOpen ∧
    (dropdownMenuItemKeyDown " " hp isOpen).menuOpen = isOpen ∧
    (dropdownMenuCheckboxItemClick hp chk isOpen).1.menuOpen = isOpen ∧
    (dropdownMenuRadioItemClick hp v isOpen).1.menuOpen = isOpen := by
  refine ⟨rfl, ?_, ?_, ?_, ?_, rfl, rfl⟩ <;>
    cases hp <;>
    simp [dropdownMenuItemClick, dropdownMenuItemKeyDown]
